import Mathlib

/-!
Verification of the Embr query-orchestration engine.

This file shallow-embeds the core of `AIService` (tool selection, tool
execution with caching, tool chaining, response generation, preference
enrichment) and of `MCPToolRegistry.executeTool`, and proves the spec's
claims about them.

Modelling conventions:
* `await`-ed external calls (the reasoning model, tool implementations,
  the preference fetch) are passed in as explicit values or functions.
* JavaScript exceptions are modelled with `Except String`; a caught
  exception carries its message.
* JavaScript `null`/`undefined` field values are modelled with `Option`;
  reading a field that a dynamic object does not carry yields `none`
  (i.e. `undefined`), while reading a field of `null` itself is a
  `TypeError` and is modelled as an `Except.error`.
* Dynamically-typed tool payloads (`any`) are modelled by the inductive
  `ToolData`, one constructor per object shape the orchestrator actually
  constructs or inspects; opaque payloads the code never looks into are
  plain strings.
-/

namespace Embr

/-- `listStartsWith l p` : does `l` start with `p`? (char-list helper). -/
def listStartsWith : List Char → List Char → Bool
  | _, [] => true
  | [], _ :: _ => false
  | c :: cs, p :: ps => c == p && listStartsWith cs ps

/-- `listHasSub l sub` : does `l` contain `sub` as a contiguous sublist?
Models JavaScript `String.prototype.includes`. -/
def listHasSub : List Char → List Char → Bool
  | [], sub => sub.isEmpty
  | c :: cs, sub => listStartsWith (c :: cs) sub || listHasSub cs sub

/-- JavaScript `s.includes(sub)`. -/
def jsIncludes (s sub : String) : Bool :=
  listHasSub s.data sub.data

/-- JavaScript `s.toLowerCase()` (character-wise lowering). -/
def jsToLower (s : String) : String :=
  String.mk (s.data.map Char.toLower)

/-- JavaScript `s.trim()`: strip whitespace from both ends. -/
def jsTrim (s : String) : String :=
  String.mk (((s.data.dropWhile Char.isWhitespace).reverse.dropWhile
    Char.isWhitespace).reverse)

/-- JavaScript `s.substring(0, n)`. -/
def jsTake (s : String) (n : Nat) : String :=
  String.mk (s.data.take n)

/-- JavaScript truthiness of a nullable string: `null`/`undefined` and the
empty string are falsy. -/
def jsTruthyOpt : Option String → Bool
  | none => false
  | some s => s != ""

/-- JavaScript `a || b` for a nullable string `a` with default `b`
(falls through on `null`/`undefined`/`""`). -/
def jsOrStr (a : Option String) (b : String) : String :=
  match a with
  | none => b
  | some s => if s == "" then b else s

/-- JavaScript `Math.round (n / d)` for natural `n`, `d > 0` (round half up). -/
def jsRoundDiv (n d : Nat) : Nat :=
  (n + d / 2) / d

/-- One entry of `searchWeb`'s `data.results` array. -/
structure SearchResult where
  url : Option String
  title : String
  deriving DecidableEq, Repr

/-- The per-site payload pushed into `crawledContent` by
`performToolChaining` (`{search_result, content, crawl_index}`); the crawl
tool's own `data` is opaque to the orchestrator and kept as a string. -/
structure CrawledSite where
  search_result : SearchResult
  content : Option String
  crawl_index : Nat
  deriving DecidableEq, Repr

/-- An email record as read by the retrieval→document chain. -/
structure Email where
  subject : Option String
  sender : Option String
  date : Option String
  snippet : Option String
  content : Option String
  deriving DecidableEq, Repr

/-- `event.start` of a calendar event. -/
structure EventStart where
  dateTime : Option String
  date : Option String
  deriving DecidableEq, Repr

/-- A calendar event as read by the retrieval→document chain. -/
structure CalEvent where
  summary : Option String
  start : Option EventStart
  description : Option String
  deriving DecidableEq, Repr

/-- A Google Drive file record as read by the retrieval→document chain.
The source field named `type` is rendered here as `ftype`. -/
structure DriveFile where
  name : Option String
  title : Option String
  mimeType : Option String
  ftype : Option String
  size : Option Nat
  content : Option String
  deriving DecidableEq, Repr

/-- The dynamically-typed `data` payload of a tool result: one constructor
per object shape the orchestrator constructs or inspects.  `prim` is an
opaque payload the orchestrator never looks into. -/
inductive ToolData where
  | prim (payload : String)
  | gen (contentF textF : Option String)
  | search (results : List SearchResult)
  | emailsData (emails : List Email)
  | eventsData (events : List CalEvent)
  | driveSearch (files : List DriveFile)
  | driveFileData (file : DriveFile)
  | procData (summaryF fileNameF : Option String) (keyPointsF : Option (List String))
  | searchChain (search_results : ToolData) (crawled_sites : List CrawledSite)
  | retrievalChain (original_data : ToolData) (created_document : Option String)
      (chained_tools : List String)
  | genChain (generated_content : ToolData) (saved_document : Option String)
      (chained_tools : List String)
  | procChain (processed_document : ToolData) (summary_document : Option String)
      (chained_tools : List String)
  deriving DecidableEq, Repr

namespace ToolData

/-- Field read `data.results` (an array, `undefined` on other shapes). -/
def resultsOf : ToolData → Option (List SearchResult)
  | .search rs => some rs
  | _ => none

/-- Field read `data.emails || []`. -/
def emailsOf : ToolData → List Email
  | .emailsData es => es
  | _ => []

/-- Field read `data.events || []`. -/
def eventsOf : ToolData → List CalEvent
  | .eventsData es => es
  | _ => []

/-- Field read `data.content`. -/
def contentOf : ToolData → Option String
  | .gen c _ => c
  | _ => none

/-- Field read `data.text`. -/
def textOf : ToolData → Option String
  | .gen _ t => t
  | _ => none

/-- Field read `data.summary`. -/
def summaryOf : ToolData → Option String
  | .procData s _ _ => s
  | _ => none

/-- Field read `data.fileName`. -/
def fileNameOf : ToolData → Option String
  | .procData _ f _ => f
  | _ => none

/-- Field read `data.keyPoints`. -/
def keyPointsOf : ToolData → Option (List String)
  | .procData _ _ k => k
  | _ => none

/-- Field read `data.files || [data]`: a non-drive object falls back to a
one-element array holding the object itself, whose drive-file fields all
read as `undefined`. -/
def driveFilesOf : ToolData → List DriveFile
  | .driveSearch fs => fs
  | .driveFileData f => [f]
  | _ => [{ name := none, title := none, mimeType := none, ftype := none,
            size := none, content := none }]

/-- Field read `data.auto_crawled` (truthy only on the search→crawl bundle). -/
def autoCrawled : ToolData → Bool
  | .searchChain _ _ => true
  | _ => false

/-- Field read `data.total_sites_crawled`. -/
def totalSitesCrawled : ToolData → Nat
  | .searchChain _ cs => cs.length
  | _ => 0

/-- Field read `data.chained_tools` (the sequence actually recorded in the
bundle; the search→crawl bundle stores the literal `['searchWeb','crawlPage']`). -/
def chainedToolsOf : ToolData → Option (List String)
  | .searchChain _ _ => some ["searchWeb", "crawlPage"]
  | .retrievalChain _ _ ts => some ts
  | .genChain _ _ ts => some ts
  | .procChain _ _ ts => some ts
  | _ => none

end ToolData

/-- The uniform tool-result envelope (`{success, data?, error?}`). -/
structure ToolResult where
  success : Bool
  data : Option ToolData := none
  error : Option String := none
  deriving DecidableEq, Repr

/-- Result envelope of a secondary tool invoked during chaining
(`crawlPage` / `createDocument`); its `data` is opaque to the chain logic. -/
structure SubToolResult where
  success : Bool
  data : Option String := none
  deriving DecidableEq, Repr

/-- `AIToolSelection`: the reasoning model's parsed JSON reply.
`parameters` is kept in its `JSON.stringify` serialized form. -/
structure AIToolSelection where
  tool : Option String
  confidence : Nat := 0
  parameters : String := ""
  reasoning : Option String := none
  geminiOutput : Option String := none
  deriving DecidableEq, Repr

/-- `UserContext.preferences`. -/
structure Preferences where
  responseStyle : Option String := none
  includeActions : Bool := false
  isVoiceMode : Bool := false
  cleanForSpeech : Bool := false
  isVoiceQuery : Bool := false
  deriving DecidableEq, Repr

/-- `communicationStyle` of a stored user-preference record. -/
structure CommunicationStyle where
  tone : Option String := none
  detail_level : Option String := none
  deriving DecidableEq, Repr

/-- `assistantBehavior` of a stored user-preference record. -/
structure AssistantBehavior where
  suggest_related_topics : Option Bool := none
  deriving DecidableEq, Repr

/-- The stored personalization profile (only the fields the enrichment
step reads). -/
structure StoredPreferences where
  communicationStyle : Option CommunicationStyle := none
  assistantBehavior : Option AssistantBehavior := none
  deriving DecidableEq, Repr

/-- The row fetched from `user_preferences`
(`select('preferences, onboarding_completed')`). -/
structure FetchedRecord where
  preferences : Option StoredPreferences := none
  onboarding_completed : Bool := false
  deriving DecidableEq, Repr

/-- `personalization.currentContext` computed during enrichment. -/
structure CurrentContext where
  timeOfDay : String
  dayOfWeek : String
  timestampIso : String
  deriving DecidableEq, Repr

/-- `UserContext.personalization` attached by enrichment. -/
structure Personalization where
  userPreferences : StoredPreferences
  onboardingCompleted : Bool
  currentContext : CurrentContext
  deriving DecidableEq, Repr

/-- The request envelope threaded through the pipeline. -/
structure UserContext where
  query : String
  preferences : Option Preferences := none
  personalization : Option Personalization := none
  deriving DecidableEq, Repr

/-- `Boolean(context.preferences?.isVoiceQuery)`. -/
def ctxIsVoiceQuery (c : UserContext) : Bool :=
  (c.preferences.map Preferences.isVoiceQuery).getD false

/-- `AIService.mapDetailLevelToResponseStyle` (source lines 86–93). -/
def mapDetailLevelToResponseStyle (detailLevel : Option String) : String :=
  match detailLevel with
  | some "brief" => "brief"
  | some "detailed" => "detailed"
  | some "comprehensive" => "detailed"
  | _ => "conversational"

/-- The `timeOfDay` ternary of `enrichContextWithPreferences`
(source lines 68–69): hour `<12 → morning`, `<17 → afternoon`, else `evening`. -/
def timeOfDayOfHour (hour : Nat) : String :=
  if hour < 12 then "morning" else if hour < 17 then "afternoon" else "evening"

/-- `AIService.enrichContextWithPreferences` (source lines 27–81).  The
awaited database fetch is passed in as `fetched` (`none` models both a
fetch error and an absent/empty record, each of which returns the original
context); the current time is passed as its observed components. -/
def enrichContextWithPreferences (context : UserContext) (fetched : Option FetchedRecord)
    (hour : Nat) (dayOfWeek iso : String) : UserContext :=
  match fetched with
  | none => context
  | some rec =>
    match rec.preferences with
    | none => context
    | some prefs =>
      { context with
        preferences := some {
          responseStyle := some (mapDetailLevelToResponseStyle
            (prefs.communicationStyle.bind CommunicationStyle.detail_level)),
          includeActions := (prefs.assistantBehavior.bind
            AssistantBehavior.suggest_related_topics).getD false,
          isVoiceMode := (context.preferences.map Preferences.isVoiceMode).getD false,
          cleanForSpeech := (context.preferences.map Preferences.cleanForSpeech).getD false,
          isVoiceQuery := (context.preferences.map Preferences.isVoiceQuery).getD false },
        personalization := some {
          userPreferences := prefs,
          onboardingCompleted := rec.onboarding_completed,
          currentContext := {
            timeOfDay := timeOfDayOfHour hour,
            dayOfWeek := dayOfWeek,
            timestampIso := iso } } }

/-- The envelope produced by `MCPToolRegistry.executeTool`
(`{success, data?, error?, timestamp?}`). -/
structure MCPToolResponse where
  success : Bool
  data : Option ToolData := none
  error : Option String := none
  timestamp : Option String := none
  deriving DecidableEq, Repr

/-- A registered tool: its `execute(userId, params)` implementation, which
may either return a response or throw (parameters kept serialized). -/
structure MCPTool where
  execute : String → String → Except String MCPToolResponse

/-- First-match lookup in an association list keyed by tool name, modelling
`Map.get`. -/
def lookupTool : List (String × MCPTool) → String → Option MCPTool
  | [], _ => none
  | (k, t) :: rest, name => if k == name then some t else lookupTool rest name

/-- `MCPToolRegistry.executeTool` (registry source lines 402–428): looks the
tool up by name; if absent returns the `Tool '<name>' not found` envelope;
otherwise invokes it, converting a thrown exception into a failure envelope
with the exception's message.  Total: it never propagates an exception. -/
def registryExecuteTool (tools : List (String × MCPTool))
    (name userId params nowIso : String) : MCPToolResponse :=
  match lookupTool tools name with
  | none =>
    { success := false,
      error := some ("Tool '" ++ name ++ "' not found"),
      timestamp := some nowIso }
  | some tool =>
    match tool.execute userId params with
    | .ok r => r
    | .error e =>
      { success := false,
        error := some e,
        timestamp := some nowIso }

/-- One entry of `AIService.responseCache` (`{result, timestamp}`). -/
structure CacheEntry where
  result : MCPToolResponse
  timestamp : Nat
  deriving DecidableEq, Repr

/-- `cacheTimeout = 5 * 60 * 1000` milliseconds. -/
def cacheTimeout : Nat := 5 * 60 * 1000

/-- `Map.get` on the response cache. -/
def lookupEntry : List (String × CacheEntry) → String → Option CacheEntry
  | [], _ => none
  | (k, e) :: rest, key => if k == key then some e else lookupEntry rest key

/-- `Map.set` on the response cache: replace in place if the key exists
(preserving insertion order), else append. -/
def setEntry : List (String × CacheEntry) → String → CacheEntry → List (String × CacheEntry)
  | [], key, e => [(key, e)]
  | (k, e') :: rest, key, e =>
    if k == key then (key, e) :: rest else (k, e') :: setEntry rest key e

/-- `AIService.cleanCache` (source lines 350–357): drop every entry with
`now - timestamp > cacheTimeout`. -/
def cleanCache (now : Nat) (cache : List (String × CacheEntry)) : List (String × CacheEntry) :=
  cache.filter (fun kv => !(now - kv.2.timestamp > cacheTimeout))

/-- `${x}` interpolation of a nullable string (JavaScript prints `null`). -/
def jsShowNullable : Option String → String
  | none => "null"
  | some s => s

/-- The cache key `` `${selection.tool}_${userId}_${JSON.stringify(selection.parameters)}` ``. -/
def cacheKeyOf (tool : Option String) (userId paramsJson : String) : String :=
  jsShowNullable tool ++ "_" ++ userId ++ "_" ++ paramsJson

/-- Outcome of one `AIService.executeTool` call: the returned result, the
cache state afterwards, and whether the underlying tool implementation was
actually invoked. -/
structure ExecOutcome where
  result : MCPToolResponse
  cache : List (String × CacheEntry)
  invokedTool : Bool
  deriving Repr

/-- `AIService.executeTool` (source lines 313–345).  `toolLookup` is the
result of `this.toolRegistry.getTool(selection.tool)`: `none` when the tool
is unregistered — in which case this method *throws*
`` Tool ${selection.tool} not found `` — otherwise the behaviour the tool's
`execute` would have on this call.  On a cache hit within `cacheTimeout`
the stored result is returned without invoking the tool; otherwise the tool
runs, its result is cached at `now`, and the cache is swept lazily once it
exceeds 100 entries. -/
def aiExecuteTool (toolLookup : Option (Except String MCPToolResponse))
    (cache : List (String × CacheEntry)) (selection : AIToolSelection)
    (userId : String) (now : Nat) : Except String ExecOutcome :=
  match toolLookup with
  | none => .error ("Tool " ++ jsShowNullable selection.tool ++ " not found")
  | some toolExec =>
    let cacheKey := cacheKeyOf selection.tool userId selection.parameters
    let fresh : Except String ExecOutcome :=
      match toolExec with
      | .error e => .error e
      | .ok result =>
        let cache' := setEntry cache cacheKey { result := result, timestamp := now }
        let cache'' := if cache'.length > 100 then cleanCache now cache' else cache'
        .ok { result := result, cache := cache'', invokedTool := true }
    match lookupEntry cache cacheKey with
    | some cachedData =>
      if now - cachedData.timestamp < cacheTimeout then
        .ok { result := cachedData.result, cache := cache, invokedTool := false }
      else fresh
    | none => fresh

/-- The backtick character. -/
def btick : Char := Char.ofNat 96

/-- Fuel-indexed scan for `replaceFenceMarks`: each step consumes at least
one character, so fuel equal to the list length always suffices (the fuel
only makes the recursion structural). -/
def replaceFenceMarksAux : Nat → List Char → List Char
  | 0, l => l
  | _, [] => []
  | fuel + 1, c :: cs =>
    if listStartsWith (c :: cs) [btick, btick, btick, 'j', 's', 'o', 'n'] then
      replaceFenceMarksAux fuel (cs.drop 6)
    else if listStartsWith (c :: cs) [btick, btick, btick] then
      replaceFenceMarksAux fuel (cs.drop 2)
    else
      c :: replaceFenceMarksAux fuel cs

/-- The global replace `text.replace(/```(json)?/g, "")`: scanning left to
right, each occurrence of a triple backtick, optionally followed
immediately by `json`, is removed. -/
def replaceFenceMarks (l : List Char) : List Char :=
  replaceFenceMarksAux l.length l

/-- The fence sanitizing of `AIService.selectTool` (source lines 282–287):
trim the model's reply, and if it starts with a code fence, strip every
fence marker and trim again. -/
def sanitizedReply (raw : String) : String :=
  let text := jsTrim raw
  if listStartsWith text.data [btick, btick, btick] then
    jsTrim (String.mk (replaceFenceMarks text.data))
  else text

/-- `AIService.selectTool` (source lines 174–308), reduced to its
observable behaviour: `modelReply` is the reasoning model's reply text
(`none` when the model call threw), and `parseJson` abstracts `JSON.parse`
composed with reading the selection's fields (`none` when parsing throws,
or when the parsed value is `null`).  Any exception inside the `try` —
including a parse failure — yields `null`; otherwise the parsed selection
is returned unvalidated. -/
def selectTool (modelReply : Option String)
    (parseJson : String → Option AIToolSelection) : Option AIToolSelection :=
  match modelReply with
  | none => none
  | some raw => parseJson (sanitizedReply raw)

/-- The `dataRetrievalTools` list of `shouldChainTool`/`performToolChaining`
(source lines 612 and 723). -/
def dataRetrievalTools : List String :=
  ["getEmails", "getLastTenMails", "getTodaysEvents", "searchGoogleDrive", "getGoogleDriveFile"]

/-- The `shouldAutoCrawl` keyword test of `shouldChainTool`
(source lines 578–605), applied to the lower-cased query. -/
def shouldAutoCrawlQuery (query : String) (voiceQuery : Bool) : Bool :=
  jsIncludes query "research" ||
  jsIncludes query "information about" ||
  jsIncludes query "tell me about" ||
  jsIncludes query "what is" ||
  jsIncludes query "explain" ||
  jsIncludes query "summarize" ||
  jsIncludes query "analyze" ||
  jsIncludes query "content of" ||
  jsIncludes query "details" ||
  jsIncludes query "learn about" ||
  jsIncludes query "find out about" ||
  jsIncludes query "news" ||
  jsIncludes query "latest" ||
  jsIncludes query "recent" ||
  jsIncludes query "update" ||
  jsIncludes query "compare" ||
  jsIncludes query "versus" ||
  jsIncludes query "vs" ||
  jsIncludes query "comprehensive" ||
  jsIncludes query "detailed" ||
  jsIncludes query "complete" ||
  voiceQuery

/-- `AIService.shouldChainTool` (source lines 568–631). -/
def shouldChainTool (selection : AIToolSelection) (toolResult : ToolResult)
    (context : UserContext) : Bool :=
  if !toolResult.success || toolResult.data.isNone then false
  else
    let query := jsToLower context.query
    match toolResult.data with
    | none => false
    | some d =>
      if selection.tool == some "searchWeb" && (ToolData.resultsOf d).isSome then
        let results := (ToolData.resultsOf d).getD []
        shouldAutoCrawlQuery query (ctxIsVoiceQuery context) && results.length > 0
      else if dataRetrievalTools.contains (selection.tool.getD "") then
        jsIncludes query "create" &&
          (jsIncludes query "doc" || jsIncludes query "document" ||
           jsIncludes query "summary" || jsIncludes query "report")
      else if selection.tool == some "generateContentWithAI" then
        jsIncludes query "save" || jsIncludes query "create doc" || jsIncludes query "write to"
      else if selection.tool == some "processDocument" then
        jsIncludes query "summarize" && (jsIncludes query "create" || jsIncludes query "save")
      else false

/-- The `isComprehensiveQuery` test of `performToolChaining`
(source lines 657–661), applied to the lower-cased query. -/
def isComprehensiveQuery (query : String) (voiceQuery : Bool) : Bool :=
  jsIncludes query "comprehensive" ||
  jsIncludes query "detailed" ||
  jsIncludes query "research" ||
  jsIncludes query "compare" ||
  voiceQuery

/-- The external collaborators of `performToolChaining`: whether
`crawlPage`/`createDocument` are registered, and the behaviour of their
`execute` calls on this request.  `crawlExec` maps a URL to the crawl
outcome (throw or result); `docExec` maps (title, content, type,
destination) to the document-creation result. -/
structure ChainEnv where
  hasCrawlTool : Bool := true
  crawlExec : String → Except String SubToolResult := fun _ => .ok { success := false }
  hasCreateDocTool : Bool := true
  docExec : String → String → String → String → SubToolResult :=
    fun _ _ _ _ => { success := false }

/-- One mapped crawl promise of `performToolChaining` (source lines
670–693): skip results with a falsy `url`; a thrown crawl or an
unsuccessful crawl yields `null`, a successful one the
`{search_result, content, crawl_index}` payload. -/
def crawlOne (crawlExec : String → Except String SubToolResult)
    (index : Nat) (result : SearchResult) : Option CrawledSite :=
  match result.url with
  | none => none
  | some u =>
    if u == "" then none
    else
      match crawlExec u with
      | .error _ => none
      | .ok crawlResult =>
        if crawlResult.success then
          some { search_result := result, content := crawlResult.data, crawl_index := index + 1 }
        else none

/-- The `Promise.allSettled` fan-out and collection of `performToolChaining`
(source lines 670–702): the first `maxSites` results are each crawled
independently and the successful payloads collected in order. -/
def chainCrawlBatch (crawlExec : String → Except String SubToolResult)
    (results : List SearchResult) (maxSites : Nat) : List CrawledSite :=
  ((results.take maxSites).enum).filterMap (fun p => crawlOne crawlExec p.1 p.2)

/-- One email section of the retrieval→document chain's markdown
(source lines 737–742). -/
def emailSection (p : Nat × Email) : String :=
  "## " ++ toString (p.1 + 1) ++ ". " ++ jsOrStr p.2.subject "No Subject" ++ "\n" ++
  "**From:** " ++ jsOrStr p.2.sender "Unknown" ++ "\n" ++
  "**Date:** " ++ jsOrStr p.2.date "Unknown" ++ "\n" ++
  "**Summary:** " ++
    jsOrStr p.2.snippet (jsOrStr (p.2.content.map (fun c => jsTake c 200)) "No content") ++
  "...\n\n"

/-- One calendar-event section of the retrieval→document chain's markdown
(source lines 749–754). -/
def eventSection (p : Nat × CalEvent) : String :=
  "## " ++ toString (p.1 + 1) ++ ". " ++ jsOrStr p.2.summary "No Title" ++ "\n" ++
  "**Time:** " ++
    jsOrStr (p.2.start.bind EventStart.dateTime)
      (jsOrStr (p.2.start.bind EventStart.date) "Unknown") ++ "\n" ++
  (if jsTruthyOpt p.2.description then
    "**Description:** " ++ p.2.description.getD "" ++ "\n" else "") ++
  "\n"

/-- One drive-file section of the retrieval→document chain's markdown
(source lines 760–766). -/
def driveFileSection (p : Nat × DriveFile) : String :=
  "## " ++ toString (p.1 + 1) ++ ". " ++
    jsOrStr p.2.name (jsOrStr p.2.title "Untitled") ++ "\n" ++
  "**Type:** " ++ jsOrStr p.2.mimeType (jsOrStr p.2.ftype "Unknown") ++ "\n" ++
  (match p.2.size with
   | some n => if n != 0 then "**Size:** " ++ toString (jsRoundDiv n 1024) ++ " KB\n" else ""
   | none => "") ++
  (if jsTruthyOpt p.2.content then
    "**Content Preview:** " ++ jsTake (p.2.content.getD "") 300 ++ "...\n" else "") ++
  "\n"

/-- The `(title, content)` built by the retrieval→document chain
(source lines 727–767), keyed on the first tool's name; tools matching
none of the three shapes (e.g. `getLastTenMails`) leave both empty. -/
def buildRetrievalDoc (tool : String) (d : ToolData) (dateStr : String) : String × String :=
  if jsIncludes tool "Email" then
    let emails := ToolData.emailsOf d
    ("Email Summary - " ++ dateStr,
     "# Email Summary - " ++ dateStr ++ "\n\n" ++
     "**Total Emails:** " ++ toString emails.length ++ "\n\n" ++
     String.join (emails.enum.map emailSection))
  else if tool == "getTodaysEvents" then
    let events := ToolData.eventsOf d
    ("Calendar Summary - " ++ dateStr,
     "# Calendar Summary - " ++ dateStr ++ "\n\n" ++
     "**Total Events:** " ++ toString events.length ++ "\n\n" ++
     String.join (events.enum.map eventSection))
  else if jsIncludes tool "Drive" then
    let files := ToolData.driveFilesOf d
    ("Drive Files Summary - " ++ dateStr,
     "# Google Drive Files Summary\n\n" ++
     String.join (files.enum.map driveFileSection))
  else ("", "")

/-- `AIService.performToolChaining` (source lines 636–855).  The four
chain branches are tried in source order; each returns early only on a
fully successful chained result, and everything else — including the
`TypeError` thrown when `searchWeb` data is `null` — falls out to `null`
via the surrounding `try`/`catch`. -/
def performToolChaining (firstSelection : AIToolSelection) (firstResult : ToolResult)
    (context : UserContext) (env : ChainEnv) (dateStr : String) : Option ToolResult :=
  let query := jsToLower context.query
  -- 1. searchWeb → multi-crawlPage
  let branch1 : Option ToolResult :=
    match firstSelection.tool, firstResult.data with
    | some t, some d =>
      if t == "searchWeb" && (ToolData.resultsOf d).isSome then
        let results := (ToolData.resultsOf d).getD []
        if env.hasCrawlTool then
          let isComprehensive := isComprehensiveQuery query (ctxIsVoiceQuery context)
          let maxSitesToCrawl := min results.length (if isComprehensive then 5 else 3)
          let crawledContent := chainCrawlBatch env.crawlExec results maxSitesToCrawl
          if crawledContent.length > 0 then
            some { success := true, data := some (.searchChain d crawledContent) }
          else none
        else none
      else none
    | _, _ => none
  -- 2. data retrieval → createDocument
  let branch2 : Option ToolResult :=
    match firstSelection.tool, firstResult.data with
    | some t, some d =>
      if dataRetrievalTools.contains t then
        let tc := buildRetrievalDoc t d dateStr
        if env.hasCreateDocTool && tc.2 != "" then
          let docResult := env.docExec tc.1 tc.2 "markdown" "google_drive"
          if docResult.success then
            some { success := true,
                   data := some (.retrievalChain d docResult.data [t, "createDocument"]) }
          else none
        else none
      else none
    | _, _ => none
  -- 3. generated content → createDocument
  let branch3 : Option ToolResult :=
    match firstSelection.tool, firstResult.data with
    | some t, some d =>
      if t == "generateContentWithAI" then
        if env.hasCreateDocTool then
          let title := "Generated Content - " ++ dateStr
          let content := jsOrStr (ToolData.contentOf d) (jsOrStr (ToolData.textOf d) "")
          let docResult := env.docExec title content "markdown" "both"
          if docResult.success then
            some { success := true,
                   data := some (.genChain d docResult.data
                     ["generateContentWithAI", "createDocument"]) }
          else none
        else none
      else none
    | _, _ => none
  -- 4. processed document → summary createDocument
  let branch4 : Option ToolResult :=
    match firstSelection.tool, firstResult.data with
    | some t, some d =>
      if t == "processDocument" then
        if env.hasCreateDocTool && jsTruthyOpt (ToolData.summaryOf d) then
          let title := "Document Summary - " ++ dateStr
          let keyPointsStr :=
            match ToolData.keyPointsOf d with
            | none => "None extracted"
            | some ps =>
              let s := String.intercalate "\n" (ps.map (fun point => "- " ++ point))
              if s == "" then "None extracted" else s
          let content := "# Document Summary\n\n**Original:** " ++
            jsOrStr (ToolData.fileNameOf d) "Unknown" ++ "\n\n**Summary:**\n" ++
            (ToolData.summaryOf d).getD "" ++ "\n\n**Key Points:**\n" ++ keyPointsStr
          let docResult := env.docExec title content "markdown" "both"
          if docResult.success then
            some { success := true,
                   data := some (.procChain d docResult.data
                     ["processDocument", "createDocument"]) }
          else none
        else none
      else none
    | _, _ => none
  (((branch1.orElse fun _ => branch2).orElse fun _ => branch3).orElse fun _ => branch4)

/-- `AIService.generateResponse` (source lines 469–543), reduced to its
observable behaviour.  On an unsuccessful tool result it returns the fixed
apologetic template embedding the error without calling the model.
Otherwise the prompt template is evaluated: the interpolation
`toolResult.data.auto_crawled ? ... : ...` reads a property of
`toolResult.data`, so a `null` payload throws a `TypeError` (which escapes:
only the model call itself sits in this method's `try`).  With a non-null
payload, the model reply (`modelReply`, `none` when `generateContent`
threw) is trimmed and returned, falling back to the fixed
could-not-format message. -/
def generateResponse (toolResult : ToolResult) (modelReply : Option String) :
    Except String String :=
  if !toolResult.success then
    .ok ("I couldn't retrieve the information you requested. " ++
         jsOrStr toolResult.error "Please try again later.")
  else
    match toolResult.data with
    | none => .error "Cannot read properties of null (reading 'auto_crawled')"
    | some _ =>
      match modelReply with
      | some t => .ok (jsTrim t)
      | none =>
        .ok "I found the information you requested, but had trouble formatting the response. Please check the raw data above."

/-- `AIService.generateSuggestedActions` (source lines 548–563): rule-based
suggestions from the query, truncated to at most two. -/
def generateSuggestedActions (context : UserContext) (_toolResult : ToolResult) :
    List String :=
  let suggestions : List String :=
    (if jsIncludes (jsToLower context.query) "calendar" ||
        jsIncludes (jsToLower context.query) "meeting" then
      ["Would you like to see your schedule for tomorrow?",
       "Do you want to check for any conflicts?"]
     else []) ++
    (if jsIncludes (jsToLower context.query) "email" then
      ["Would you like me to check for any urgent emails?",
       "Do you want to see emails from specific people?"]
     else [])
  suggestions.take 2

/-- The pipeline's terminal `AIResponse` (absent fields are `none`). -/
structure AIResponse where
  success : Bool
  toolUsed : Option String := none
  rawData : Option ToolData := none
  naturalResponse : String
  reasoning : Option String := none
  suggestedActions : Option (List String) := none
  chainedTools : Option (List String) := none
  error : Option String := none
  deriving DecidableEq, Repr

/-- The no-selection fallback of `processQuery` (source lines 109–115). -/
def noToolResponse : AIResponse :=
  { success := false,
    naturalResponse := "I'm not sure how to help with that request. I can assist with calendar events, emails, and productivity tasks.",
    error := some "No suitable tool found" }

/-- The top-level `catch` envelope of `processQuery` (source lines 161–168). -/
def catchResponse (msg : String) : AIResponse :=
  { success := false,
    naturalResponse := "Sorry, I encountered an error while processing your request. Please try again.",
    error := some msg }

/-- The direct-answer response of `processQuery` (source lines 117–125),
returned when the selection has `tool: null` and a truthy `geminiOutput`. -/
def directAnswerResponse (toolSelection : AIToolSelection) : AIResponse :=
  { success := true,
    naturalResponse := toolSelection.geminiOutput.getD "",
    reasoning := toolSelection.reasoning,
    rawData := none,
    suggestedActions := some [] }

/-- The main success response of `processQuery` (source lines 151–159).
`chainedSome` is whether `chainedResult` was non-null; note the `chainedTools`
field is the literal `['searchWeb', 'crawlPage']` whenever it is set. -/
def mainResponse (context : UserContext) (toolSelection : AIToolSelection)
    (finalResult : ToolResult) (chainedSome : Bool) (naturalResponse : String) : AIResponse :=
  { success := true,
    toolUsed := toolSelection.tool,
    rawData := finalResult.data,
    naturalResponse := naturalResponse,
    reasoning := toolSelection.reasoning,
    suggestedActions := some (generateSuggestedActions context finalResult),
    chainedTools := if chainedSome then some ["searchWeb", "crawlPage"] else none }

/-- The awaited external collaborators of one `processQuery` run. -/
structure PipelineEnv where
  /-- The `user_preferences` fetch (`none`: error or empty). -/
  prefsFetch : Option FetchedRecord := none
  /-- Hour component of the current time. -/
  hour : Nat := 9
  /-- Locale weekday name of the current time. -/
  dayOfWeek : String := "Monday"
  /-- `new Date().toISOString()`. -/
  nowIso : String := "t0"
  /-- `new Date().toLocaleDateString()`. -/
  dateStr : String := "d0"
  /-- Outcome of `selectTool` (`none`: selection failure). -/
  selection : Option AIToolSelection := none
  /-- Outcome of `this.executeTool(toolSelection, userId)` when a non-null
  tool is selected (`Except.error`: that call threw). -/
  execOutcome : Except String ToolResult := .error "unused"
  /-- Collaborators of `performToolChaining`. -/
  chainEnv : ChainEnv := {}
  /-- The response model's reply in `generateResponse` (`none`: it threw). -/
  genReply : Option String := none

/-- Steps 2.5–3 of `processQuery` (source lines 141–159): pick the final
result (`chainedResult || toolResult`), generate the natural response, and
assemble the success envelope; a thrown `generateResponse` escapes to the
top-level `catch`. -/
def respondWith (context : UserContext) (toolSelection : AIToolSelection)
    (chainedResult : Option ToolResult) (toolResult : ToolResult)
    (genReply : Option String) : AIResponse :=
  match generateResponse (chainedResult.getD toolResult) genReply with
  | .error e => catchResponse e
  | .ok naturalResponse =>
    mainResponse context toolSelection (chainedResult.getD toolResult)
      chainedResult.isSome naturalResponse

/-- `AIService.processQuery` (source lines 98–169): the full orchestration
pipeline, with every awaited external call supplied by `env`.  The whole
body is wrapped in `try`/`catch`; any escaped exception becomes the fixed
`catchResponse` envelope. -/
def processQuery (context : UserContext) (env : PipelineEnv) : AIResponse :=
  let enrichedContext :=
    enrichContextWithPreferences context env.prefsFetch env.hour env.dayOfWeek env.nowIso
  match env.selection with
  | none => noToolResponse
  | some toolSelection =>
    if toolSelection.tool.isNone && jsTruthyOpt toolSelection.geminiOutput then
      directAnswerResponse toolSelection
    else
      match (match toolSelection.tool with
             | none => (Except.ok { success := true, data := none } : Except String ToolResult)
             | some _ => env.execOutcome) with
      | .error e => catchResponse e
      | .ok toolResult =>
        respondWith context toolSelection
          (if toolResult.success && shouldChainTool toolSelection toolResult enrichedContext then
            performToolChaining toolSelection toolResult enrichedContext env.chainEnv env.dateStr
          else none)
          toolResult env.genReply

/-! ## Helper lemmas -/

/-- `responseStyle` of a context's preferences, `none` when absent. -/
def responseStyleOf (c : UserContext) : Option String :=
  match c.preferences with
  | some p => p.responseStyle
  | none => none

/-- `personalization.currentContext.timeOfDay`, `none` when absent. -/
def timeOfDayCtx (c : UserContext) : Option String :=
  c.personalization.map (fun p => p.currentContext.timeOfDay)

theorem shouldChainTool_success_data {selection : AIToolSelection} {toolResult : ToolResult}
    {context : UserContext} (h : shouldChainTool selection toolResult context = true) :
    toolResult.success = true ∧ toolResult.data.isSome := by
  unfold shouldChainTool at h
  by_cases hs : toolResult.success
  · by_cases hd : toolResult.data.isSome
    · exact ⟨hs, hd⟩
    · simp [hs, Option.isNone_iff_eq_none.2 (Option.not_isSome_iff_eq_none.1 hd)] at h
  · simp [hs] at h

theorem generateSuggestedActions_le_two (context : UserContext) (toolResult : ToolResult) :
    (generateSuggestedActions context toolResult).length ≤ 2 := by
  unfold generateSuggestedActions
  simp [List.length_take]

/-- `respondWith` yields either the catch envelope or a main success
envelope built from the given selection. -/
theorem respondWith_cases (context : UserContext) (toolSelection : AIToolSelection)
    (chainedResult : Option ToolResult) (toolResult : ToolResult) (genReply : Option String) :
    (∃ e, respondWith context toolSelection chainedResult toolResult genReply
      = catchResponse e) ∨
    (∃ fr b nat, respondWith context toolSelection chainedResult toolResult genReply
      = mainResponse context toolSelection fr b nat) := by
  unfold respondWith
  cases hgen : generateResponse (chainedResult.getD toolResult) genReply with
  | error e => exact Or.inl ⟨e, rfl⟩
  | ok nat => exact Or.inr ⟨_, _, nat, rfl⟩

/-- Repackaging of a `respondWith` case split into the four-way response
shape, for a fixed selected `sel`. -/
theorem shape_of_respondWith (context : UserContext) (sel : AIToolSelection) (r : AIResponse)
    (h : (∃ e, r = catchResponse e) ∨ (∃ fr b nat, r = mainResponse context sel fr b nat)) :
    r = noToolResponse ∨
    (∃ sel', some sel = some sel' ∧ r = directAnswerResponse sel') ∨
    (∃ e, r = catchResponse e) ∨
    (∃ sel' fr b nat, some sel = some sel' ∧ r = mainResponse context sel' fr b nat) := by
  rcases h with ⟨e, he⟩ | ⟨fr, b, nat, hm⟩
  · exact Or.inr (Or.inr (Or.inl ⟨e, he⟩))
  · exact Or.inr (Or.inr (Or.inr ⟨sel, fr, b, nat, rfl, hm⟩))

/-- Every `processQuery` outcome is one of the four response shapes the
source constructs. -/
theorem processQuery_shape (context : UserContext) (env : PipelineEnv) :
    processQuery context env = noToolResponse ∨
    (∃ sel, env.selection = some sel ∧ processQuery context env = directAnswerResponse sel) ∨
    (∃ e, processQuery context env = catchResponse e) ∨
    (∃ sel fr b nat, env.selection = some sel ∧
      processQuery context env = mainResponse context sel fr b nat) := by
  unfold processQuery
  cases hsel : env.selection with
  | none => exact Or.inl rfl
  | some sel =>
    simp only
    by_cases hdir : (sel.tool.isNone && jsTruthyOpt sel.geminiOutput) = true
    · rw [if_pos hdir]
      exact Or.inr (Or.inl ⟨sel, rfl, rfl⟩)
    · rw [if_neg hdir]
      cases htool : sel.tool with
      | none =>
        dsimp only
        exact shape_of_respondWith context sel _ (respondWith_cases context sel _ _ env.genReply)
      | some t =>
        dsimp only
        cases hexec : env.execOutcome with
        | error e => exact Or.inr (Or.inr (Or.inl ⟨e, rfl⟩))
        | ok toolResult =>
          exact shape_of_respondWith context sel _
            (respondWith_cases context sel _ _ env.genReply)

/-! ## Claim theorems -/

/-- **C8** (confirmed): preference enrichment is a deterministic function of
the stored record and the current time: the stored detail level maps to
`responseStyle` by `brief→brief`, `detailed→detailed`,
`comprehensive→detailed`, any other or absent value `→conversational`; and
`currentContext.timeOfDay` is `morning` for hours `<12`, `afternoon` for
hours `<17`, `evening` otherwise. -/
theorem c8_preference_enrichment (ctx : UserContext) (rec : FetchedRecord)
    (prefs : StoredPreferences) (hour : Nat) (dow iso : String) (e : UserContext)
    (hrec : rec.preferences = some prefs)
    (he : enrichContextWithPreferences ctx (some rec) hour dow iso = e) :
    (∀ cs, prefs.communicationStyle = some cs →
      (cs.detail_level = some "brief" → responseStyleOf e = some "brief") ∧
      (cs.detail_level = some "detailed" → responseStyleOf e = some "detailed") ∧
      (cs.detail_level = some "comprehensive" → responseStyleOf e = some "detailed") ∧
      (∀ s, cs.detail_level = some s → s ≠ "brief" → s ≠ "detailed" → s ≠ "comprehensive" →
        responseStyleOf e = some "conversational") ∧
      (cs.detail_level = none → responseStyleOf e = some "conversational")) ∧
    (prefs.communicationStyle = none → responseStyleOf e = some "conversational") ∧
    (hour < 12 → timeOfDayCtx e = some "morning") ∧
    (12 ≤ hour → hour < 17 → timeOfDayCtx e = some "afternoon") ∧
    (17 ≤ hour → timeOfDayCtx e = some "evening") := by
  subst he
  simp only [enrichContextWithPreferences, hrec]
  refine ⟨?_, ?_, ?_, ?_, ?_⟩
  · intro cs hcs
    refine ⟨?_, ?_, ?_, ?_, ?_⟩
    · intro hdl
      simp [responseStyleOf, hcs, hdl, mapDetailLevelToResponseStyle]
    · intro hdl
      simp [responseStyleOf, hcs, hdl, mapDetailLevelToResponseStyle]
    · intro hdl
      simp [responseStyleOf, hcs, hdl, mapDetailLevelToResponseStyle]
    · intro s hdl h1 h2 h3
      simp only [responseStyleOf, Option.bind, hcs, hdl]
      unfold mapDetailLevelToResponseStyle
      split <;> simp_all
    · intro hdl
      simp [responseStyleOf, hcs, hdl, mapDetailLevelToResponseStyle]
  · intro hcs
    simp [responseStyleOf, hcs, mapDetailLevelToResponseStyle]
  · intro h
    simp [timeOfDayCtx, timeOfDayOfHour, h]
  · intro h1 h2
    simp only [timeOfDayCtx, timeOfDayOfHour]
    rw [if_neg (by omega), if_pos h2]
    rfl
  · intro h1
    simp only [timeOfDayCtx, timeOfDayOfHour]
    rw [if_neg (by omega), if_neg (by omega)]
    rfl

/-- Concrete stored preferences for the C8 witness. -/
def c8Prefs : StoredPreferences :=
  { communicationStyle := some { detail_level := some "comprehensive" } }

/-- Concrete fetched record for the C8 witness. -/
def c8Rec : FetchedRecord :=
  { preferences := some c8Prefs, onboarding_completed := true }

/-- Concrete enriched context for the C8 witness. -/
def c8Enriched : UserContext :=
  enrichContextWithPreferences { query := "hi" } (some c8Rec) 9 "Monday" "T0"

/-- **C8** witness: a `comprehensive` detail level at hour 9 enriches to a
`detailed` response style in the `morning`. -/
theorem c8_preference_enrichment_witness :
    responseStyleOf c8Enriched = some "detailed" ∧
    timeOfDayCtx c8Enriched = some "morning" :=
  ⟨((c8_preference_enrichment { query := "hi" } c8Rec c8Prefs 9 "Monday" "T0"
      c8Enriched rfl rfl).1 _ rfl).2.2.1 rfl,
   (c8_preference_enrichment { query := "hi" } c8Rec c8Prefs 9 "Monday" "T0"
      c8Enriched rfl rfl).2.2.1 (by decide)⟩

/-- **C2** (confirmed): executing an unregistered tool name through
`MCPToolRegistry.executeTool` returns the
`{success:false, error:"Tool '<name>' not found", timestamp}` envelope; the
function is total, so no exception reaches the caller. -/
theorem c2_unregistered_tool_envelope (tools : List (String × MCPTool))
    (name userId params nowIso : String)
    (h : lookupTool tools name = none) :
    registryExecuteTool tools name userId params nowIso =
      { success := false, data := none,
        error := some ("Tool '" ++ name ++ "' not found"),
        timestamp := some nowIso } := by
  unfold registryExecuteTool
  rw [h]

/-- **C2** witness: a one-tool registry, queried for a missing name. -/
theorem c2_unregistered_tool_envelope_witness :
    lookupTool [("getEmails", ⟨fun _ _ => .ok { success := true }⟩)] "missingTool" = none ∧
    registryExecuteTool [("getEmails", ⟨fun _ _ => .ok { success := true }⟩)]
        "missingTool" "user1" "p1" "T0" =
      { success := false, data := none,
        error := some ("Tool 'missingTool' not found"),
        timestamp := some "T0" } :=
  ⟨rfl, c2_unregistered_tool_envelope _ "missingTool" "user1" "p1" "T0" rfl⟩

/-- **C7** (confirmed): `selectTool` parses exactly the fence-stripped model
reply; if that stripped text fails to parse, `selectTool` returns `null`
and `processQuery` returns the fixed `success:false` "not sure how to help"
response. -/
theorem c7_parse_failure_selection (raw : String)
    (parseJson : String → Option AIToolSelection) (ctx : UserContext) (env : PipelineEnv)
    (h : parseJson (sanitizedReply raw) = none) :
    selectTool (some raw) parseJson = parseJson (sanitizedReply raw) ∧
    selectTool (some raw) parseJson = none ∧
    processQuery ctx { env with selection := selectTool (some raw) parseJson }
      = noToolResponse ∧
    (processQuery ctx { env with selection := selectTool (some raw) parseJson }).success
      = false := by
  have hsel : selectTool (some raw) parseJson = none := h
  refine ⟨rfl, hsel, ?_, ?_⟩ <;>
    simp [processQuery, hsel, noToolResponse]

/-- **C7** witness: a fenced non-JSON reply with a parser that rejects it. -/
theorem c7_parse_failure_selection_witness :
    (fun _ => (none : Option AIToolSelection)) (sanitizedReply "```json\nnot json\n```")
      = none ∧
    selectTool (some "```json\nnot json\n```") (fun _ => none) = none ∧
    processQuery { query := "hello" }
      { selection := selectTool (some "```json\nnot json\n```") (fun _ => none) }
      = noToolResponse :=
  ⟨rfl,
   (c7_parse_failure_selection "```json\nnot json\n```" (fun _ => none)
      { query := "hello" } {} rfl).2.1,
   (c7_parse_failure_selection "```json\nnot json\n```" (fun _ => none)
      { query := "hello" } {} rfl).2.2.1⟩

/-- **C10** (confirmed): `generateSuggestedActions` returns at most two
suggestions, and the `suggestedActions` field of every successful
`processQuery` response has length at most two. -/
theorem c10_suggested_actions_bound (ctx : UserContext) (tr : ToolResult)
    (env : PipelineEnv) (l : List String) :
    (generateSuggestedActions ctx tr).length ≤ 2 ∧
    ((processQuery ctx env).success = true →
      (processQuery ctx env).suggestedActions = some l → l.length ≤ 2) := by
  refine ⟨generateSuggestedActions_le_two ctx tr, ?_⟩
  intro _ h
  rcases processQuery_shape ctx env with h0 | ⟨sel, _, h0⟩ | ⟨e, h0⟩ | ⟨sel, fr, b, nat, _, h0⟩
  · rw [h0] at h; simp [noToolResponse] at h
  · rw [h0] at h
    simp only [directAnswerResponse, Option.some.injEq] at h
    subst h
    decide
  · rw [h0] at h; simp [catchResponse] at h
  · rw [h0] at h
    simp only [mainResponse, Option.some.injEq] at h
    subst h
    exact generateSuggestedActions_le_two ctx fr

/-- **C10** witness: a calendar-and-email query yields exactly the two-cap. -/
theorem c10_suggested_actions_bound_witness :
    (processQuery { query := "check my calendar and email" }
      { selection := some { tool := none, geminiOutput := some "hi there" } }).success
      = true ∧
    (processQuery { query := "check my calendar and email" }
      { selection := some { tool := none, geminiOutput := some "hi there" } }).suggestedActions
      = some [] ∧
    ([] : List String).length ≤ 2 :=
  ⟨rfl, rfl,
   (c10_suggested_actions_bound { query := "check my calendar and email" } { success := true }
      { selection := some { tool := none, geminiOutput := some "hi there" } } []).2 rfl rfl⟩

theorem lookupEntry_setEntry (c : List (String × CacheEntry)) (k : String) (e : CacheEntry) :
    lookupEntry (setEntry c k e) k = some e := by
  induction c with
  | nil => simp [setEntry, lookupEntry]
  | cons kv rest ih =>
    obtain ⟨k', e'⟩ := kv
    simp only [setEntry]
    by_cases h : (k' == k) = true
    · rw [if_pos h]
      simp [lookupEntry]
    · rw [if_neg h]
      simp only [lookupEntry]
      rw [if_neg h]
      exact ih

theorem lookupEntry_cleanCache (now : Nat) (c : List (String × CacheEntry)) (k : String)
    (e : CacheEntry) (h : lookupEntry c k = some e)
    (hkeep : ¬ now - e.timestamp > cacheTimeout) :
    lookupEntry (cleanCache now c) k = some e := by
  induction c with
  | nil => simp [lookupEntry] at h
  | cons kv rest ih =>
    obtain ⟨k', e'⟩ := kv
    simp only [lookupEntry] at h
    by_cases hk : (k' == k) = true
    · rw [if_pos hk] at h
      injection h with h
      subst h
      simp only [cleanCache, List.filter_cons]
      rw [if_pos (by simpa using hkeep)]
      simp [lookupEntry, hk]
    · rw [if_neg hk] at h
      simp only [cleanCache, List.filter_cons]
      by_cases hp : (!(now - e'.timestamp > cacheTimeout) : Bool) = true
      · rw [if_pos hp]
        simp only [lookupEntry]
        rw [if_neg hk]
        exact ih h
      · rw [if_neg hp]
        exact ih h

/-- A cache-miss run of `aiExecuteTool`: the tool is invoked, its result
returned, and the new cache has the result stored under the key at the
call's time (surviving the lazy sweep, since it is fresh). -/
theorem aiExecuteTool_fresh (cache : List (String × CacheEntry)) (sel : AIToolSelection)
    (userId : String) (t1 : Nat) (r : MCPToolResponse)
    (h : lookupEntry cache (cacheKeyOf sel.tool userId sel.parameters) = none) :
    ∃ c1, aiExecuteTool (some (.ok r)) cache sel userId t1
        = .ok { result := r, cache := c1, invokedTool := true } ∧
      lookupEntry c1 (cacheKeyOf sel.tool userId sel.parameters)
        = some { result := r, timestamp := t1 } := by
  simp only [aiExecuteTool]
  rw [h]
  refine ⟨_, rfl, ?_⟩
  by_cases hlen :
      (setEntry cache (cacheKeyOf sel.tool userId sel.parameters)
        { result := r, timestamp := t1 }).length > 100
  · rw [if_pos hlen]
    refine lookupEntry_cleanCache t1 _ _ _ (lookupEntry_setEntry _ _ _) ?_
    simp [cacheTimeout]
  · rw [if_neg hlen]
    exact lookupEntry_setEntry _ _ _

/-- A cache-hit run of `aiExecuteTool`: within the TTL the stored result is
returned unchanged, the cache untouched, the tool not invoked — whatever
the tool's behaviour would have been. -/
theorem aiExecuteTool_hit (cache : List (String × CacheEntry)) (sel : AIToolSelection)
    (userId : String) (t2 : Nat) (en : CacheEntry)
    (toolExec : Except String MCPToolResponse)
    (h : lookupEntry cache (cacheKeyOf sel.tool userId sel.parameters) = some en)
    (ht : t2 - en.timestamp < cacheTimeout) :
    aiExecuteTool (some toolExec) cache sel userId t2
      = .ok { result := en.result, cache := cache, invokedTool := false } := by
  simp only [aiExecuteTool]
  rw [h]
  simp [ht]

/-- An expired-entry run of `aiExecuteTool`: once the TTL has elapsed the
underlying tool is invoked again. -/
theorem aiExecuteTool_expired (cache : List (String × CacheEntry)) (sel : AIToolSelection)
    (userId : String) (t2 : Nat) (en : CacheEntry) (r2 : MCPToolResponse)
    (h : lookupEntry cache (cacheKeyOf sel.tool userId sel.parameters) = some en)
    (ht : ¬ t2 - en.timestamp < cacheTimeout) :
    ∃ c2, aiExecuteTool (some (.ok r2)) cache sel userId t2
      = .ok { result := r2, cache := c2, invokedTool := true } := by
  simp only [aiExecuteTool]
  rw [h]
  simp only [if_neg ht]
  exact ⟨_, rfl⟩

/-- **C6** (confirmed): tool execution is idempotent within the cache TTL.
A first call on a cache miss invokes the tool and stores its result; any
repeat call with the same tool/user/parameters strictly within the 5-minute
TTL returns the identical stored result from cache without invoking the
tool implementation (whatever it would now do); once the TTL has elapsed
(`cacheTimeout ≤ t2 - t1`), a repeat call re-invokes the underlying tool. -/
theorem c6_cache_idempotence_and_expiry (cache : List (String × CacheEntry))
    (sel : AIToolSelection) (userId : String) (t1 : Nat) (r1 : MCPToolResponse)
    (h : lookupEntry cache (cacheKeyOf sel.tool userId sel.parameters) = none) :
    ∃ c1, aiExecuteTool (some (.ok r1)) cache sel userId t1
        = .ok { result := r1, cache := c1, invokedTool := true } ∧
      (∀ t2 ex2, t2 - t1 < cacheTimeout →
        aiExecuteTool (some ex2) c1 sel userId t2
          = .ok { result := r1, cache := c1, invokedTool := false }) ∧
      (∀ t2 r2, cacheTimeout ≤ t2 - t1 →
        ∃ c2, aiExecuteTool (some (.ok r2)) c1 sel userId t2
          = .ok { result := r2, cache := c2, invokedTool := true }) := by
  obtain ⟨c1, h1, hlook⟩ := aiExecuteTool_fresh cache sel userId t1 r1 h
  refine ⟨c1, h1, ?_, ?_⟩
  · intro t2 ex2 ht
    exact aiExecuteTool_hit c1 sel userId t2 _ ex2 hlook ht
  · intro t2 r2 ht
    exact aiExecuteTool_expired c1 sel userId t2 _ r2 hlook (by simpa using Nat.not_lt.2 ht)

/-- Concrete selection for the C6 witness. -/
def c6Sel : AIToolSelection := { tool := some "getEmails", parameters := "p1" }

/-- Concrete first tool result for the C6 witness. -/
def c6R1 : MCPToolResponse := { success := true, data := some (.prim "emails-1") }

/-- **C6** witness: starting from an empty cache. -/
theorem c6_cache_idempotence_and_expiry_witness :
    lookupEntry [] (cacheKeyOf c6Sel.tool "u1" c6Sel.parameters) = none ∧
    (∃ c1, aiExecuteTool (some (.ok c6R1)) [] c6Sel "u1" 0
        = .ok { result := c6R1, cache := c1, invokedTool := true } ∧
      (∀ t2 ex2, t2 - 0 < cacheTimeout →
        aiExecuteTool (some ex2) c1 c6Sel "u1" t2
          = .ok { result := c6R1, cache := c1, invokedTool := false }) ∧
      (∀ t2 r2, cacheTimeout ≤ t2 - 0 →
        ∃ c2, aiExecuteTool (some (.ok r2)) c1 c6Sel "u1" t2
          = .ok { result := r2, cache := c2, invokedTool := true })) :=
  ⟨rfl, c6_cache_idempotence_and_expiry [] c6Sel "u1" 0 c6R1 rfl⟩

/-- **C9** (confirmed): `executeTool` caches every result regardless of its
`success` flag, so a failure envelope produced by a tool is replayed from
cache for the identical (tool, user, parameters) key within the TTL window
instead of re-invoking the tool. -/
theorem c9_failure_envelope_cached (cache : List (String × CacheEntry))
    (sel : AIToolSelection) (userId : String) (t1 t2 : Nat) (r1 : MCPToolResponse)
    (ex2 : Except String MCPToolResponse)
    (_hfail : r1.success = false)
    (h : lookupEntry cache (cacheKeyOf sel.tool userId sel.parameters) = none)
    (ht : t2 - t1 < cacheTimeout) :
    ∃ c1, aiExecuteTool (some (.ok r1)) cache sel userId t1
        = .ok { result := r1, cache := c1, invokedTool := true } ∧
      aiExecuteTool (some ex2) c1 sel userId t2
        = .ok { result := r1, cache := c1, invokedTool := false } := by
  obtain ⟨c1, h1, hlook⟩ := aiExecuteTool_fresh cache sel userId t1 r1 h
  exact ⟨c1, h1, aiExecuteTool_hit c1 sel userId t2 _ ex2 hlook ht⟩

/-- Concrete selection for the C9 witness. -/
def c9Sel : AIToolSelection := { tool := some "searchWeb", parameters := "p2" }

/-- Concrete failure envelope for the C9 witness. -/
def c9Fail : MCPToolResponse := { success := false, error := some "upstream 500" }

/-- **C9** witness: a failure envelope cached at time 0 is replayed at time
1000 ms without re-invoking the tool. -/
theorem c9_failure_envelope_cached_witness :
    c9Fail.success = false ∧
    lookupEntry [] (cacheKeyOf c9Sel.tool "u2" c9Sel.parameters) = none ∧
    (1000 : Nat) - 0 < cacheTimeout ∧
    (∃ c1, aiExecuteTool (some (.ok c9Fail)) [] c9Sel "u2" 0
        = .ok { result := c9Fail, cache := c1, invokedTool := true } ∧
      aiExecuteTool (some (.ok { success := true })) c1 c9Sel "u2" 1000
        = .ok { result := c9Fail, cache := c1, invokedTool := false }) :=
  ⟨rfl, rfl, by decide,
   c9_failure_envelope_cached [] c9Sel "u2" 0 1000 c9Fail
     (.ok { success := true }) rfl rfl (by decide)⟩

/-- The `maxSitesToCrawl` of the search→crawl chain: `min` of the result
count and the 5 / 3 cap chosen by `isComprehensiveQuery`. -/
def chainMaxSites (context : UserContext) (results : List SearchResult) : Nat :=
  min results.length
    (if isComprehensiveQuery (jsToLower context.query) (ctxIsVoiceQuery context) then 5 else 3)

/-- The `crawledContent` the search→crawl chain collects. -/
def chainCrawledSites (env : ChainEnv) (context : UserContext)
    (results : List SearchResult) : List CrawledSite :=
  chainCrawlBatch env.crawlExec results (chainMaxSites context results)

theorem chainCrawlBatch_length_le (crawlExec : String → Except String SubToolResult)
    (results : List SearchResult) (maxSites : Nat) :
    (chainCrawlBatch crawlExec results maxSites).length ≤ maxSites := by
  calc (chainCrawlBatch crawlExec results maxSites).length
      ≤ ((results.take maxSites).enum).length := List.length_filterMap_le _ _
    _ = (results.take maxSites).length := List.enum_length
    _ ≤ maxSites := by rw [List.length_take]; exact Nat.min_le_left _ _

/-- Evaluation of `performToolChaining` on a successful `searchWeb` result:
it returns the crawl bundle when at least one site crawled successfully and
`null` otherwise (the other three chain branches never fire for
`searchWeb`). -/
theorem performToolChaining_searchWeb (sel : AIToolSelection) (firstResult : ToolResult)
    (ctx : UserContext) (env : ChainEnv) (dateStr : String) (results : List SearchResult)
    (hsel : sel.tool = some "searchWeb")
    (hdata : firstResult.data = some (.search results))
    (hcrawl : env.hasCrawlTool = true) :
    performToolChaining sel firstResult ctx env dateStr =
      (if (chainCrawledSites env ctx results).length > 0 then
        some { success := true,
               data := some (.searchChain (.search results) (chainCrawledSites env ctx results)) }
      else none) := by
  have hguard : "searchWeb" ∉ dataRetrievalTools := by decide
  unfold performToolChaining
  rw [hsel, hdata]
  by_cases hc : (chainCrawledSites env ctx results).length > 0
  · rw [if_pos hc]
    simp only [chainCrawledSites, chainMaxSites] at hc ⊢
    simp [ToolData.resultsOf, hcrawl, hc, Option.orElse]
  · rw [if_neg hc]
    simp only [chainCrawledSites, chainMaxSites] at hc
    simp [ToolData.resultsOf, hcrawl, hc, hguard, Option.orElse]

/-- **C4** (confirmed): in the search→crawl chain at most 5 results are
crawled for comprehensive queries and at most 3 otherwise; each crawl
fails independently (the collected sites are exactly the per-site
successful payloads of the first `maxSites` results, in order, regardless
of the other sites' failures); the chained result is a success exactly when
at least one site crawled successfully, and then `total_sites_crawled`
equals the number of successful crawls, `crawled_sites` holds exactly the
successful payloads, and `auto_crawled` is true. -/
theorem c4_search_crawl_chain (sel : AIToolSelection) (firstResult : ToolResult)
    (ctx : UserContext) (env : ChainEnv) (dateStr : String) (results : List SearchResult)
    (hsel : sel.tool = some "searchWeb")
    (hdata : firstResult.data = some (.search results))
    (hcrawl : env.hasCrawlTool = true) :
    chainMaxSites ctx results ≤
      (if isComprehensiveQuery (jsToLower ctx.query) (ctxIsVoiceQuery ctx) then 5 else 3) ∧
    (chainCrawledSites env ctx results).length ≤ chainMaxSites ctx results ∧
    chainCrawledSites env ctx results =
      ((results.take (chainMaxSites ctx results)).enum).filterMap
        (fun p => crawlOne env.crawlExec p.1 p.2) ∧
    (chainCrawledSites env ctx results = [] →
      performToolChaining sel firstResult ctx env dateStr = none) ∧
    (chainCrawledSites env ctx results ≠ [] →
      performToolChaining sel firstResult ctx env dateStr =
        some { success := true,
               data := some (.searchChain (.search results)
                 (chainCrawledSites env ctx results)) } ∧
      ToolData.totalSitesCrawled
          (.searchChain (.search results) (chainCrawledSites env ctx results)) =
        (chainCrawledSites env ctx results).length ∧
      ToolData.autoCrawled
          (.searchChain (.search results) (chainCrawledSites env ctx results)) = true) := by
  have hperf := performToolChaining_searchWeb sel firstResult ctx env dateStr results
    hsel hdata hcrawl
  refine ⟨Nat.min_le_right _ _, chainCrawlBatch_length_le _ _ _, rfl, ?_, ?_⟩
  · intro hnil
    rw [hperf, hnil]
    simp
  · intro hne
    have hlen : (chainCrawledSites env ctx results).length > 0 :=
      List.length_pos.2 hne
    rw [hperf, if_pos hlen]
    exact ⟨rfl, rfl, rfl⟩

/-- Concrete chain collaborators for the C4 witness: of five search
results, the crawls of `u1` and `u3` fail (one by throwing, one with a
failure envelope) and `u2`, `u4`, `u5` succeed. -/
def c4Env : ChainEnv :=
  { hasCrawlTool := true,
    crawlExec := fun u =>
      if u == "u1" then .error "ECONNRESET"
      else if u == "u3" then .ok { success := false }
      else .ok { success := true, data := some ("page-" ++ u) },
    hasCreateDocTool := false }

/-- Concrete search results for the C4 witness. -/
def c4Results : List SearchResult :=
  [{ url := some "u1", title := "r1" }, { url := some "u2", title := "r2" },
   { url := some "u3", title := "r3" }, { url := some "u4", title := "r4" },
   { url := some "u5", title := "r5" }]

/-- Concrete comprehensive-query context for the C4 witness. -/
def c4Ctx : UserContext := { query := "comprehensive research on fusion energy" }

/-- Concrete selection for the C4 witness. -/
def c4Sel : AIToolSelection := { tool := some "searchWeb" }

/-- Concrete first tool result for the C4 witness. -/
def c4First : ToolResult := { success := true, data := some (.search c4Results) }

/-- The expected chained envelope for the C4 witness. -/
def c4Bundle : ToolResult :=
  { success := true,
    data := some (.searchChain (.search c4Results) (chainCrawledSites c4Env c4Ctx c4Results)) }

/-- **C4** witness: 5 results, 2 failed crawls, 3 successful ones — the
bundle reports exactly the 3 successful payloads. -/
theorem c4_search_crawl_chain_witness :
    chainCrawledSites c4Env c4Ctx c4Results ≠ [] ∧
    performToolChaining c4Sel c4First c4Ctx c4Env "d0" = some c4Bundle ∧
    chainCrawledSites c4Env c4Ctx c4Results =
      [{ search_result := { url := some "u2", title := "r2" },
         content := some "page-u2", crawl_index := 2 },
       { search_result := { url := some "u4", title := "r4" },
         content := some "page-u4", crawl_index := 4 },
       { search_result := { url := some "u5", title := "r5" },
         content := some "page-u5", crawl_index := 5 }] ∧
    ToolData.totalSitesCrawled
        (.searchChain (.search c4Results) (chainCrawledSites c4Env c4Ctx c4Results)) = 3 :=
  ⟨by decide,
   ((c4_search_crawl_chain c4Sel c4First c4Ctx c4Env "d0" c4Results
       rfl rfl rfl).2.2.2.2 (by decide)).1,
   by decide,
   by decide⟩

/-- **C5** (confirmed): when the first tool execution succeeds and the
chaining step was warranted but failed entirely (`performToolChaining`
returned `null`, which per its `try`/`catch` also covers every internal
throw), `processQuery` still returns `success:true` with the first tool's
unchained `data` as `rawData`, no `chainedTools` field, and the first
tool's name as `toolUsed`. -/
theorem c5_chain_failure_fallback (ctx : UserContext) (env : PipelineEnv)
    (sel : AIToolSelection) (t : String) (toolResult : ToolResult)
    (hsel : env.selection = some sel)
    (htool : sel.tool = some t)
    (hexec : env.execOutcome = .ok toolResult)
    (hsucc : toolResult.success = true)
    (hchain : shouldChainTool sel toolResult
      (enrichContextWithPreferences ctx env.prefsFetch env.hour env.dayOfWeek env.nowIso)
      = true)
    (hfailchain : performToolChaining sel toolResult
      (enrichContextWithPreferences ctx env.prefsFetch env.hour env.dayOfWeek env.nowIso)
      env.chainEnv env.dateStr = none) :
    (processQuery ctx env).success = true ∧
    (processQuery ctx env).rawData = toolResult.data ∧
    (processQuery ctx env).chainedTools = none ∧
    (processQuery ctx env).toolUsed = some t := by
  obtain ⟨d, hd⟩ := Option.isSome_iff_exists.1 (shouldChainTool_success_data hchain).2
  have hpq : processQuery ctx env = respondWith ctx sel none toolResult env.genReply := by
    unfold processQuery
    rw [hsel]
    dsimp only
    rw [htool]
    simp only [Option.isNone_some, Bool.false_and, Bool.false_eq_true, if_false]
    rw [hexec]
    dsimp only
    rw [hsucc, hchain]
    simp only [Bool.and_self, if_true, hfailchain]
  have hgen : generateResponse toolResult env.genReply =
      .ok (match env.genReply with
           | some r => jsTrim r
           | none => "I found the information you requested, but had trouble formatting the response. Please check the raw data above.") := by
    unfold generateResponse
    rw [hsucc, hd]
    cases env.genReply <;> rfl
  rw [hpq]
  unfold respondWith
  simp only [Option.getD_none, Option.getD, hgen]
  cases env.genReply <;>
    simp [mainResponse, htool]

/-- Concrete context for the C5 witness. -/
def c5Ctx : UserContext := { query := "research fusion" }

/-- Concrete selection for the C5 witness. -/
def c5Sel : AIToolSelection := { tool := some "searchWeb" }

/-- Concrete first tool result for the C5 witness: one search hit with no
URL, so the auto-crawl chain collects nothing. -/
def c5First : ToolResult :=
  { success := true, data := some (.search [{ url := none, title := "r1" }]) }

/-- Concrete pipeline collaborators for the C5 witness. -/
def c5Env : PipelineEnv := { selection := some c5Sel, execOutcome := .ok c5First }

/-- **C5** witness: the warranted auto-crawl chain fails entirely and the
pipeline still answers with the unchained result. -/
theorem c5_chain_failure_fallback_witness :
    shouldChainTool c5Sel c5First
      (enrichContextWithPreferences c5Ctx c5Env.prefsFetch c5Env.hour c5Env.dayOfWeek
        c5Env.nowIso) = true ∧
    performToolChaining c5Sel c5First
      (enrichContextWithPreferences c5Ctx c5Env.prefsFetch c5Env.hour c5Env.dayOfWeek
        c5Env.nowIso) c5Env.chainEnv c5Env.dateStr = none ∧
    (processQuery c5Ctx c5Env).success = true ∧
    (processQuery c5Ctx c5Env).rawData = c5First.data ∧
    (processQuery c5Ctx c5Env).chainedTools = none := by
  refine ⟨by decide, by decide, ?_, ?_, ?_⟩
  · exact (c5_chain_failure_fallback c5Ctx c5Env c5Sel "searchWeb" c5First
      rfl rfl rfl rfl (by decide) (by decide)).1
  · exact (c5_chain_failure_fallback c5Ctx c5Env c5Sel "searchWeb" c5First
      rfl rfl rfl rfl (by decide) (by decide)).2.1
  · exact (c5_chain_failure_fallback c5Ctx c5Env c5Sel "searchWeb" c5First
      rfl rfl rfl rfl (by decide) (by decide)).2.2.1

/-- Concrete selection for C1: `tool: null`, no `geminiOutput`. -/
def c1Sel : AIToolSelection := { tool := none }

/-- Concrete pipeline collaborators for C1. -/
def c1Env : PipelineEnv := { selection := some c1Sel }

/-- **C1** counterexample: on a selection with `tool: null` and no
`geminiOutput` (the gibberish-query scenario), `processQuery` does return
`success:false`, but its message is *not* the "not sure how to help"
fallback — refuting the claim's message clause. -/
theorem c1_claim_counterexample :
    (processQuery { query := "asdkjalskdj" } c1Env).success = false ∧
    (processQuery { query := "asdkjalskdj" } c1Env).naturalResponse ≠
      "I'm not sure how to help with that request. I can assist with calendar events, emails, and productivity tasks." := by
  exact ⟨rfl, by decide⟩

/-- **C1** (corrected): for every selection with `tool: null` and a falsy
`geminiOutput`, `processQuery` builds the conversational pseudo-result
`{success:true, data:null}`, and `generateResponse`'s prompt interpolation
then reads `auto_crawled` of the `null` data and throws a `TypeError`; the
top-level `catch` converts it into `success:false` with the *generic*
"Sorry, I encountered an error" message — not the "not sure how to help"
fallback, which is only returned when `selectTool` itself yields `null`. -/
theorem c1_null_selection_generic_error (ctx : UserContext) (env : PipelineEnv)
    (sel : AIToolSelection)
    (hsel : env.selection = some sel)
    (htool : sel.tool = none)
    (hout : jsTruthyOpt sel.geminiOutput = false) :
    processQuery ctx env
      = catchResponse "Cannot read properties of null (reading 'auto_crawled')" ∧
    (processQuery ctx env).success = false ∧
    (processQuery ctx env).naturalResponse
      = "Sorry, I encountered an error while processing your request. Please try again." := by
  have h1 : processQuery ctx env
      = catchResponse "Cannot read properties of null (reading 'auto_crawled')" := by
    unfold processQuery
    rw [hsel]
    dsimp only
    rw [htool, hout]
    simp only [Option.isNone_none, Bool.and_false, Bool.false_eq_true, if_false]
    rfl
  exact ⟨h1, by rw [h1]; rfl, by rw [h1]; rfl⟩

/-- **C1** witness for the corrected statement. -/
theorem c1_null_selection_generic_error_witness :
    c1Env.selection = some c1Sel ∧ c1Sel.tool = none ∧
    jsTruthyOpt c1Sel.geminiOutput = false ∧
    processQuery { query := "asdkjalskdj" } c1Env
      = catchResponse "Cannot read properties of null (reading 'auto_crawled')" :=
  ⟨rfl, rfl, rfl,
   (c1_null_selection_generic_error { query := "asdkjalskdj" } c1Env c1Sel rfl rfl rfl).1⟩

/-- Concrete context for C3: a query that triggers the retrieval→document
chain. -/
def c3Ctx : UserContext := { query := "get my emails and create a summary document" }

/-- Concrete selection for C3: first tool `getEmails`. -/
def c3Sel : AIToolSelection := { tool := some "getEmails" }

/-- Concrete retrieved email for C3. -/
def c3Email : Email :=
  { subject := some "Hi", sender := none, date := none,
    snippet := some "snip", content := none }

/-- Concrete first tool result for C3: one retrieved email. -/
def c3First : ToolResult :=
  { success := true, data := some (.emailsData [c3Email]) }

/-- Concrete chain collaborators for C3: `createDocument` succeeds. -/
def c3ChainEnv : ChainEnv :=
  { hasCrawlTool := true,
    crawlExec := fun _ => .ok { success := false },
    hasCreateDocTool := true,
    docExec := fun _ _ _ _ => { success := true, data := some "doc-1" } }

/-- Concrete pipeline collaborators for C3. -/
def c3Env : PipelineEnv :=
  { selection := some c3Sel, execOutcome := .ok c3First,
    chainEnv := c3ChainEnv, genReply := some "done" }

/-- **C3** counterexample: in a `getEmails → createDocument` chain the
response's `chainedTools` field is the hardcoded `['searchWeb','crawlPage']`,
while the sequence actually executed — recorded in the result data's own
`chained_tools` — is `['getEmails','createDocument']`; the claim's
"`chainedTools` lists exactly the executed sequence" is therefore false. -/
theorem c3_claim_counterexample :
    (processQuery c3Ctx c3Env).chainedTools = some ["searchWeb", "crawlPage"] ∧
    ToolData.chainedToolsOf ((processQuery c3Ctx c3Env).rawData.getD (.prim ""))
      = some ["getEmails", "createDocument"] ∧
    (["searchWeb", "crawlPage"] : List String) ≠ ["getEmails", "createDocument"] := by
  exact ⟨by decide, by decide, by decide⟩

/-- **C3** (corrected): whenever chaining occurs, `toolUsed` is the first
selected tool, but `chainedTools` is always the literal
`['searchWeb','crawlPage']` — it matches the actually executed sequence
only for the search→crawl chain; for the other chains the actual sequence
is recorded only inside `rawData`'s `chained_tools` field. -/
theorem c3_chained_tools_hardcoded (ctx : UserContext) (env : PipelineEnv)
    (l : List String)
    (h : (processQuery ctx env).chainedTools = some l) :
    l = ["searchWeb", "crawlPage"] ∧
    ∃ sel, env.selection = some sel ∧ (processQuery ctx env).toolUsed = sel.tool := by
  rcases processQuery_shape ctx env with h0 | ⟨sel, hs, h0⟩ | ⟨e, h0⟩ | ⟨sel, fr, b, nat, hs, h0⟩
  · rw [h0] at h; simp [noToolResponse] at h
  · rw [h0] at h; simp [directAnswerResponse] at h
  · rw [h0] at h; simp [catchResponse] at h
  · rw [h0] at h
    simp only [mainResponse] at h
    cases b
    · simp at h
    · simp only [if_pos, Option.some.injEq] at h
      refine ⟨h.symm, sel, hs, ?_⟩
      rw [h0]
      rfl

/-- **C3** witness for the corrected statement, at the same document-chain
input as the counterexample. -/
theorem c3_chained_tools_hardcoded_witness :
    (processQuery c3Ctx c3Env).chainedTools = some ["searchWeb", "crawlPage"] ∧
    (["searchWeb", "crawlPage"] : List String) = ["searchWeb", "crawlPage"] ∧
    ∃ sel, c3Env.selection = some sel ∧ (processQuery c3Ctx c3Env).toolUsed = sel.tool :=
  ⟨by decide,
   (c3_chained_tools_hardcoded c3Ctx c3Env ["searchWeb", "crawlPage"] (by decide)).1,
   (c3_chained_tools_hardcoded c3Ctx c3Env ["searchWeb", "crawlPage"] (by decide)).2⟩

end Embr
